import Mathlib

/-!
FinanceApp verification development.

Shallow embedding of the local persistence / session layer
(`src/core/db/db-service.js`) and of the navigation controller
(`src/core/stores/app.js`, route/guard configuration from `config.js`)
of the FinanceApp repository, together with theorems settling the
specification's claims about them.

Modelling conventions:
- IndexedDB tables are Lean lists of records; Dexie auto-increment keys are
  threaded as explicit `freshId` parameters.
- Timestamps and `Date` values are integers (milliseconds since the epoch).
  A raw caller-supplied date value is represented by its parse outcome
  (`DateVal.valid ms` for a value that `new Date(x)` accepts, `DateVal.invalid`
  for one it rejects); the controller stores the same representation.
- A caller-supplied payload object (`data`) is a structure of `Option` fields:
  `some v` means the property is present on the JS object with value `v`,
  `none` means it is absent.  An object spread `{ ...base, ...data }` is then
  field-by-field `data.f.getD base.f`.
- Dynamically typed `amount` values are `JsVal` (number, string, or NaN);
  `Number(x)` on an integer-looking string is `String.toInt?`.
- PBKDF2 (`crypto.subtle.deriveBits`) is an external primitive and is passed in
  as an abstract derivation function `hashFn : password → salt → hex string`.
- Asynchronous JS methods are sequential state transformers here (the spec's
  concurrency model is out of scope of the settled claims).
-/

namespace FinanceApp

/-! ## Data model (db.js schema, version 4) -/

/-- A row of the `users` table. -/
structure User where
  id : Nat
  username : String
  email : String
  firstName : String
  lastName : String
  passwordHash : Option String
  passwordSalt : Option String
  lastPage : Option String
  deriving Repr, DecidableEq

/-- A row of the `session` table. -/
structure Session where
  id : Nat
  user_id : Nat
  token : String
  expires_at : Int
  created_at : Int
  updated_at : Int
  deriving Repr, DecidableEq

/-- A dynamically typed JS value as it ends up stored in the `amount` field:
a number, a string, or NaN. -/
inductive JsVal where
  | num (n : Int)
  | str (s : String)
  | nan
  deriving Repr, DecidableEq

/-- A caller-supplied date value, classified by the two observations
`createTransaction` makes of it: its JS truthiness (the `data.date ? … : …`
branch) and whether `new Date(x)` accepts it.
`valid ms` is a truthy value parsing to `ms` (a `Date`, a positive timestamp,
a parsable string); `invalid` is a truthy unparsable value (a garbage string);
`zeroDate` is a falsy value that would parse as the epoch (`0`, `null`,
`false`); `emptyOrNaN` is a falsy unparsable value (`''` or `NaN`). -/
inductive DateVal where
  | valid (ms : Int)
  | invalid
  | zeroDate
  | emptyOrNaN
  deriving Repr, DecidableEq

/-- A row of the `categories` table. -/
structure Category where
  id : Nat
  user_id : Option Nat
  server_id : Option Nat
  name : String
  type : String
  color : String
  predefined : Bool
  sync_status : String
  deleted_at : Option Int
  version : Nat
  created_at : Int
  updated_at : Int
  deriving Repr, DecidableEq

/-- A row of the `transactions` table. -/
structure Transaction where
  id : Nat
  user_id : Nat
  server_id : Option Nat
  category_id : Option Nat
  date : Int
  amount : JsVal
  description : String
  sync_status : String
  deleted_at : Option Int
  version : Nat
  created_at : Int
  updated_at : Int
  deriving Repr, DecidableEq

/-! ## Constants (db/constants.js) -/

/-- `SESSION_EXPIRY.SHORT`: one day in milliseconds. -/
def SESSION_EXPIRY_SHORT : Int := 24 * 60 * 60 * 1000

/-- `SESSION_EXPIRY.LONG`: thirty days in milliseconds. -/
def SESSION_EXPIRY_LONG : Int := 30 * 24 * 60 * 60 * 1000

/-- `SYNC_STATUS.LOCAL`. -/
def SYNC_STATUS_LOCAL : String := "local"

/-! ## Session management (db-service.js) -/

/-- `createSession(userId, rememberMe)`: deletes every session row of `userId`,
then adds a fresh row whose token and auto-increment id are the `token` and
`freshId` arguments (`makeToken()` and Dexie key generation are external
randomness).  Returns the new table and the token. -/
def createSession (sessions : List Session) (userId : Nat) (rememberMe : Bool)
    (token : String) (freshId : Nat) (now : Int) : List Session × String :=
  let expiresIn := if rememberMe then SESSION_EXPIRY_LONG else SESSION_EXPIRY_SHORT
  let expires_at := now + expiresIn
  let afterDelete := sessions.filter (fun s => s.user_id != userId)
  (afterDelete ++
      [{ id := freshId, user_id := userId, token := token,
         expires_at := expires_at, created_at := now, updated_at := now }],
    token)

/-- JS truthiness of the `userId` option (`if (userId)`): `0` and `null` are
falsy. -/
def truthyId : Option Nat → Bool
  | some n => n != 0
  | none => false

/-- `clearSession({userId, token})`: deletes the selected session rows, then
clears the `sessionToken` localStorage slot when
`(current && (!token || token === current)) || (userId && current)` holds.
Returns the new session table and the new localStorage slot. -/
def clearSession (sessions : List Session) (localToken : Option String)
    (userId : Option Nat) (token : Option String) : List Session × Option String :=
  let sessions' :=
    if truthyId userId then
      sessions.filter (fun s => some s.user_id != userId)
    else
      match token with
      | some t => sessions.filter (fun s => s.token != t)
      | none => []
  let localToken' :=
    match localToken with
    | none => none
    | some c =>
      if (token = none ∨ token = some c) ∨ truthyId userId then none else some c
  (sessions', localToken')

/-! ## Credential verification (db-service.js) -/

/-- `verifyLogin(usernameOrEmail, password)`: looks up the first user matching
on username or email, fails (returns `none`, never throws) when the user or the
stored hash/salt is missing or falsy, otherwise re-derives the hash with the
stored salt and compares.  `hashFn` stands for the PBKDF2 derivation. -/
def verifyLogin (users : List User) (hashFn : String → String → String)
    (usernameOrEmail password : String) : Option User :=
  match users.find? (fun u => u.username == usernameOrEmail || u.email == usernameOrEmail) with
  | none => none
  | some user =>
    match user.passwordHash, user.passwordSalt with
    | some h, some salt =>
      if h = "" ∨ salt = "" then none
      else if hashFn password salt = h then some user else none
    | _, _ => none

/-! ## Page persistence (db-service.js) -/

/-- `persistPage(userId, page)`: no-op for a falsy `userId`, otherwise updates
the user's `lastPage`. -/
def persistPage (users : List User) (userId : Nat) (page : String) : List User :=
  if userId = 0 then users
  else users.map (fun u => if u.id = userId then { u with lastPage := some page } else u)

/-- `loadPage(userId)`: `user?.lastPage || null` (an empty-string page is
falsy and becomes `null`). -/
def loadPage (users : List User) (userId : Nat) : Option String :=
  if userId = 0 then none
  else
    match users.find? (fun u => u.id == userId) with
    | some u =>
      match u.lastPage with
      | some p => if p = "" then none else some p
      | none => none
    | none => none

/-! ## Categories (db-service.js) -/

/-- Caller payload for `createCategory` / `updateCategory`.  Each field is
`some v` when the property is present on the JS object.  These are the
properties the service reads or that collide with its record fields under the
`...data` spread. -/
structure CategoryData where
  id : Option Nat := none
  user_id : Option (Option Nat) := none
  server_id : Option (Option Nat) := none
  name : Option String := none
  type : Option String := none
  color : Option String := none
  predefined : Option Bool := none
  sync_status : Option String := none
  deleted_at : Option (Option Int) := none
  version : Option Nat := none
  deriving Repr, DecidableEq

/-- The regex `/^#[0-9a-fA-F]{6}$/`. -/
def isValidHexColor (s : String) : Bool :=
  match s.toList with
  | '#' :: rest =>
    rest.length = 6 &&
      rest.all (fun c =>
        c.isDigit || ('a' ≤ c && c ≤ 'f') || ('A' ≤ c && c ≤ 'F'))
  | _ => false

/-- `createCategory(userId, data)`: builds the record
`withTimestamps({user_id, server_id, name, type, color, predefined,
sync_status, deleted_at, version, ...data})`.  The `...data` spread comes
last, so every present payload property overrides the sanitized base value;
`withTimestamps` then stamps `created_at`/`updated_at`.  Returns the stored
record (`db.categories.add` assigns `freshId` when the payload carries no id). -/
def createCategory (userId : Nat) (data : CategoryData) (freshId : Nat)
    (now : Int) : Category :=
  let type0 :=
    match data.type with
    | some t => if t = "income" ∨ t = "expense" then t else "expense"
    | none => "expense"
  let color0 :=
    match data.color with
    | some c => if isValidHexColor c then c else "#999999"
    | none => "#999999"
  let name0 :=
    match data.name with
    | some n => if n.trim = "" then "Untitled" else n.trim
    | none => "Untitled"
  let base : Category :=
    { id := freshId, user_id := some userId, server_id := none,
      name := name0, type := type0, color := color0,
      predefined := false, sync_status := SYNC_STATUS_LOCAL,
      deleted_at := none, version := 1, created_at := now, updated_at := now }
  let record : Category :=
    { base with
      id := data.id.getD base.id,
      user_id := data.user_id.getD base.user_id,
      server_id := data.server_id.getD base.server_id,
      name := data.name.getD base.name,
      type := data.type.getD base.type,
      color := data.color.getD base.color,
      predefined := data.predefined.getD base.predefined,
      sync_status := data.sync_status.getD base.sync_status,
      deleted_at := data.deleted_at.getD base.deleted_at,
      version := data.version.getD base.version }
  { record with created_at := now, updated_at := now }

/-- The predefined-protection step of `updateCategory`: when the existing
record is predefined, the incoming payload's `predefined`/`type`/`color` are
overwritten with the existing values before the merge. -/
def forcePredefinedFields (existing : Category) (data : CategoryData) :
    CategoryData :=
  if existing.predefined then
    { data with
      predefined := some existing.predefined,
      type := some existing.type,
      color := some existing.color }
  else data

/-- The merge step of `updateCategory`:
`withUpdatedAt({...existing, ...data})`. -/
def mergeCategory (existing : Category) (d : CategoryData) (now : Int) :
    Category :=
  { id := d.id.getD existing.id,
    user_id := d.user_id.getD existing.user_id,
    server_id := d.server_id.getD existing.server_id,
    name := d.name.getD existing.name,
    type := d.type.getD existing.type,
    color := d.color.getD existing.color,
    predefined := d.predefined.getD existing.predefined,
    sync_status := d.sync_status.getD existing.sync_status,
    deleted_at := d.deleted_at.getD existing.deleted_at,
    version := d.version.getD existing.version,
    created_at := existing.created_at,
    updated_at := now }

/-- `updateCategory(id, data)`: loads the existing record (error when absent),
forces `predefined`/`type`/`color` back to the existing values when the
existing record is predefined, merges `withUpdatedAt({...existing, ...data})`
and `put`s the result (replacing the row whose key equals the merged record's
id, adding it otherwise).  Returns the new table and the echoed `id`. -/
def updateCategory (categories : List Category) (id : Nat) (data : CategoryData)
    (now : Int) : Except String (List Category × Nat) :=
  match categories.find? (fun c => c.id == id) with
  | none => Except.error "Category not found"
  | some existing =>
    let record := mergeCategory existing (forcePredefinedFields existing data) now
    let categories' :=
      if categories.any (fun c => c.id == record.id) then
        categories.map (fun c => if c.id = record.id then record else c)
      else categories ++ [record]
    Except.ok (categories', id)

/-! ## Transactions (db-service.js) -/

/-- Caller payload for `createTransaction`; same `Option`-presence convention
as `CategoryData`. -/
structure TransactionData where
  id : Option Nat := none
  category_id : Option (Option Nat) := none
  date : Option DateVal := none
  amount : Option JsVal := none
  description : Option String := none
  sync_status : Option String := none
  deleted_at : Option (Option Int) := none
  version : Option Nat := none
  deriving Repr, DecidableEq

/-- `Number(x)` for an `amount` value: numbers pass through, integer-looking
strings parse, everything else is NaN. -/
def jsToNumber : JsVal → Option Int
  | JsVal.num n => some n
  | JsVal.str s => s.toInt?
  | JsVal.nan => none

/-- `createTransaction(userId, data)`: `const date = data.date ? new
Date(data.date) : new Date()` — a truthiness test, so a falsy `date` value
(absent, `0`, `null`, `''`, `NaN`) is replaced by the current time — then
`if (isNaN(date)) throw new Error('Invalid date')`, then builds
`withTimestamps({user_id, server_id, category_id, date, amount, description,
sync_status, deleted_at, version, ...data})` — again the `...data` spread comes
last, so present payload properties override the coerced base values.  (The
raw value a falsy or garbage `date` property would leave in the stored row via
the spread is represented here by the coerced base date, the only field of it
the in-scope operations observe.)  Returns the stored record, or the error
before anything is built. -/
def createTransaction (userId : Nat) (data : TransactionData) (freshId : Nat)
    (now : Int) : Except String Transaction :=
  let build : Int → Transaction := fun ms =>
    let amount0 : Int :=
      match data.amount with
      | none => 0
      | some v => (jsToNumber v).getD 0
    let description0 : String :=
      match data.description with
      | some d => d.trim
      | none => ""
    let catId0 : Option Nat :=
      match data.category_id with
      | some c => if c = some 0 then none else c
      | none => none
    let base : Transaction :=
      { id := freshId, user_id := userId, server_id := none,
        category_id := catId0, date := ms, amount := JsVal.num amount0,
        description := description0, sync_status := SYNC_STATUS_LOCAL,
        deleted_at := none, version := 1, created_at := now, updated_at := now }
    let record : Transaction :=
      { base with
        id := data.id.getD base.id,
        category_id := data.category_id.getD base.category_id,
        amount := data.amount.getD base.amount,
        description := data.description.getD base.description,
        sync_status := data.sync_status.getD base.sync_status,
        deleted_at := data.deleted_at.getD base.deleted_at,
        version := data.version.getD base.version }
    { record with created_at := now, updated_at := now }
  match data.date with
  | some (DateVal.valid ms) => Except.ok (build ms)
  | some DateVal.invalid => Except.error "Invalid date"
  | some DateVal.zeroDate => Except.ok (build now)
  | some DateVal.emptyOrNaN => Except.ok (build now)
  | none => Except.ok (build now)

/-- State-level `createTransaction`: the table is unchanged on the error path
and gains exactly the built record on success. -/
def createTransactionDb (table : List Transaction) (userId : Nat)
    (data : TransactionData) (freshId : Nat) (now : Int) :
    Except String Nat × List Transaction :=
  match createTransaction userId data freshId now with
  | Except.error e => (Except.error e, table)
  | Except.ok r => (Except.ok r.id, table ++ [r])

/-- `startDate.setHours(0, 0, 0, 0)` as a UTC day floor. -/
def dayStart (ms : Int) : Int := (ms / 86400000) * 86400000

/-- `endDate.setHours(23, 59, 59, 999)` as a UTC day ceiling. -/
def dayEnd (ms : Int) : Int := dayStart ms + 86400000 - 1

/-- `getTransactions(userId, startDate, endDate)`: scans the `[user_id+date]`
index (rows of `userId`, date within the bounds when either bound is given,
ascending by date), drops soft-deleted rows (`!t.deleted_at`), and reverses to
newest-first. -/
def getTransactions (table : List Transaction) (userId : Nat)
    (startDate endDate : Option Int) : List Transaction :=
  let keyMatch : Transaction → Bool :=
    if startDate.isSome || endDate.isSome then
      let lo := match startDate with
        | some v => dayStart v
        | none => 0
      let hi := match endDate with
        | some v => dayEnd v
        | none => 8640000000000000
      fun t => t.user_id == userId && lo ≤ t.date && t.date ≤ hi
    else
      fun t => t.user_id == userId
  let scanned := ((table.filter keyMatch).mergeSort (fun a b => a.date ≤ b.date))
  (scanned.filter (fun t => t.deleted_at = none)).reverse

/-- State-level read: `getTransactions` returns its result and leaves the
table as it was (reads never write). -/
def getTransactionsOp (table : List Transaction) (userId : Nat)
    (startDate endDate : Option Int) : List Transaction × List Transaction :=
  (getTransactions table userId startDate endDate, table)

/-! ## Route table and auth guard (config.js) -/

/-- A route's kind: `'page'` or `'modal'`. -/
inductive RouteType where
  | page
  | modal
  deriving Repr, DecidableEq

/-- One entry of `ROUTES`. -/
structure Route where
  name : String
  url : String
  path : Option String
  target : String
  type : RouteType
  deriving Repr, DecidableEq

/-- `import.meta.env.BASE_URL` for the default Vite build. -/
def BASE : String := "/"

/-- The frozen `ROUTES` table of config.js, as a lookup on page keys. -/
def ROUTES (page : String) : Option Route :=
  if page = "login" then
    some { name := "login", url := BASE ++ "views/auth/login.html",
           path := none, target := "#modal-content", type := RouteType.modal }
  else if page = "register" then
    some { name := "register", url := BASE ++ "views/auth/register.html",
           path := none, target := "#modal-content", type := RouteType.modal }
  else if page = "dashboard" then
    some { name := "dashboard", url := BASE ++ "views/dashboard/dashboard.html",
           path := some "/dashboard", target := "#main-content", type := RouteType.page }
  else if page = "landing" then
    some { name := "landing", url := BASE ++ "views/landing.html",
           path := some "/", target := "#main-content", type := RouteType.page }
  else if page = "test" then
    some { name := "test", url := BASE ++ "views/test.html",
           path := some "/test", target := "#main-content", type := RouteType.page }
  else if page = "test2" then
    some { name := "test2", url := BASE ++ "views/test2.html",
           path := some "/test2", target := "#main-content", type := RouteType.page }
  else if page = "error" then
    some { name := "error", url := BASE ++ "views/404.html",
           path := some "/404", target := "#main-content", type := RouteType.page }
  else none

/-- The `ROUTES` entry for the login modal. -/
def loginRoute : Route :=
  { name := "login", url := BASE ++ "views/auth/login.html",
    path := none, target := "#modal-content", type := RouteType.modal }

/-- The `ROUTES` entry for the dashboard page. -/
def dashboardRoute : Route :=
  { name := "dashboard", url := BASE ++ "views/dashboard/dashboard.html",
    path := some "/dashboard", target := "#main-content", type := RouteType.page }

/-- The `ROUTES` entry for the landing page. -/
def landingRoute : Route :=
  { name := "landing", url := BASE ++ "views/landing.html",
    path := some "/", target := "#main-content", type := RouteType.page }

/-- `AUTH.required` from config.js. -/
def AUTH_required : List String := ["dashboard", "settings"]

/-- `AUTH.restricted` from config.js. -/
def AUTH_restricted : List String := ["login", "register", "landing"]

/-! ## Navigation controller state (stores/app.js) -/

/-- The controller state together with the ambient browser / persistence state
it touches: the Dexie tables, the `sessionToken` localStorage slot, the
`app.currentPage` sessionStorage slot, the store fields, the history stack and
current location, and a log of fragment URLs handed to the fragment loader
(htmx). -/
structure AppState where
  users : List User
  sessions : List Session
  localToken : Option String
  sessionPage : Option String
  currentUser : Option User
  currentPage : String
  lastPage : Option String
  activeModal : Option String
  locationPath : String
  historyStack : List String
  fragmentLoads : List String
  deriving Repr, DecidableEq

/-- `canAccess(page)`: a page in `AUTH.required` is denied to an anonymous
visitor; a page in `AUTH.restricted` is denied to an authenticated one. -/
def canAccess (s : AppState) (page : String) : Bool :=
  if s.currentUser.isNone && AUTH_required.contains page then false
  else !(s.currentUser.isSome && AUTH_restricted.contains page)

/-- `normalizePath`: collapse runs of `/` into one, map the empty path
to `/`. -/
def normalizePath (p : String) : String :=
  let collapsed :=
    p.toList.foldr
      (fun c acc => if c = '/' ∧ acc.head? = some '/' then acc else c :: acc) []
  if collapsed.isEmpty then "/" else String.mk collapsed

/-- `openModal(page)`: for a modal route, load its fragment into the modal
container and mark it active; otherwise do nothing. -/
def openModal (s : AppState) (page : String) : AppState :=
  match ROUTES page with
  | some route =>
    if route.type = RouteType.modal then
      { s with fragmentLoads := route.url :: s.fragmentLoads,
               activeModal := some page }
    else s
  | none => s

/-- The body of `navigateTo` past its early returns: close an open modal,
synchronize history (push on a changed path when requested, replace
otherwise), persist the page durably for an authenticated user or into
sessionStorage for an anonymous one, load the fragment, and update
`lastPage`/`currentPage`. -/
def navApply (s : AppState) (route : Route) (page : String)
    (updateHistory : Bool) : AppState :=
  let s1 := if s.activeModal.isSome then { s with activeModal := none } else s
  let targetPath := normalizePath page
  let currentPath := normalizePath s1.locationPath
  let s2 :=
    if updateHistory then
      if currentPath ≠ targetPath then
        { s1 with historyStack := s1.locationPath :: s1.historyStack,
                  locationPath := targetPath }
      else s1
    else { s1 with locationPath := targetPath }
  let s3 :=
    match s2.currentUser with
    | some u => { s2 with users := persistPage s2.users u.id page }
    | none => { s2 with sessionPage := some page }
  let s4 := { s3 with fragmentLoads := route.url :: s3.fragmentLoads }
  { s4 with lastPage := some s4.currentPage, currentPage := page }

/-- `navigateTo(page, {updateHistory})`, with an explicit recursion budget:
the source recurses into itself on an unknown route and on a guard denial
(both with the landing page), and `none` here models a computation that has
not returned within `fuel` nested calls.  All other paths return `some`. -/
def navigateToFuel : Nat → AppState → String → Bool → Option AppState
  | 0, _, _, _ => none
  | fuel + 1, s, page, updateHistory =>
    match ROUTES page with
    | none => navigateToFuel fuel s "landing" updateHistory
    | some route =>
      if route.name = s.currentPage then some s
      else if route.type = RouteType.modal then some (openModal s page)
      else if !(canAccess s page) then navigateToFuel fuel s "landing" false
      else some (navApply s route page updateHistory)

/-- `navigateTo` terminates from a given call site: some recursion budget
suffices. -/
def NavTerminates (s : AppState) (page : String) (updateHistory : Bool) : Prop :=
  ∃ fuel, (navigateToFuel fuel s page updateHistory).isSome = true

/-- `login({username, password, rememberMe})`: verify credentials (alert and
return `false` on a mismatch), issue a session, store the bearer token, set
`currentUser`, and navigate to the user's persisted last page or the
dashboard.  Fresh token and session id are explicit inputs; the fuel is passed
to the inner `navigateTo`. -/
def loginFuel (fuel : Nat) (s : AppState) (hashFn : String → String → String)
    (username password : String) (rememberMe : Bool) (token : String)
    (freshId : Nat) (now : Int) : Option (AppState × Bool) :=
  match verifyLogin s.users hashFn username password with
  | none => some (s, false)
  | some user =>
    let sessions' := (createSession s.sessions user.id rememberMe token freshId now).1
    let s1 := { s with sessions := sessions', localToken := some token,
                       currentUser := some user }
    let lastPage := loadPage s1.users user.id
    match navigateToFuel fuel s1 (lastPage.getD "dashboard") true with
    | none => none
    | some s2 => some (s2, true)

/-! ## Concrete example values for witnesses and counterexamples -/

/-- A stand-in PBKDF2 derivation used in concrete scenarios. -/
def exHash : String → String → String := fun p s => p ++ ":" ++ s

/-- A registered user with no persisted last page. -/
def exUserFresh : User :=
  { id := 1, username := "alice", email := "alice@app.io",
    firstName := "", lastName := "",
    passwordHash := some "pw:s1", passwordSalt := some "s1", lastPage := none }

/-- A registered user whose persisted last page is `test`. -/
def exUserTest : User :=
  { exUserFresh with lastPage := some "test" }

/-- An anonymous boot state over a single fresh user. -/
def exFreshState : AppState :=
  { users := [exUserFresh], sessions := [], localToken := none,
    sessionPage := none, currentUser := none, currentPage := "landing",
    lastPage := none, activeModal := none, locationPath := "/",
    historyStack := [], fragmentLoads := [] }

/-- An anonymous boot state over a single user whose last page is `test`. -/
def exTestState : AppState :=
  { exFreshState with users := [exUserTest] }

/-- An authenticated state sitting on the dashboard. -/
def exAuthState : AppState :=
  { exFreshState with
    currentUser := some exUserFresh,
    currentPage := "dashboard",
    locationPath := "/dashboard" }

/-- Another user's unexpired session row. -/
def exOtherSession : Session :=
  { id := 9, user_id := 2, token := "othertok",
    expires_at := 99999999, created_at := 0, updated_at := 0 }

/-- A seeded predefined category. -/
def exPredefCat : Category :=
  { id := 3, user_id := none, server_id := none, name := "Groceries",
    type := "expense", color := "#4caf50", predefined := true,
    sync_status := "synced", deleted_at := none, version := 1,
    created_at := 0, updated_at := 0 }

/-- A soft-deleted transaction row. -/
def exDeletedTx : Transaction :=
  { id := 4, user_id := 1, server_id := none, category_id := none,
    date := 1000, amount := JsVal.num 5, description := "coffee",
    sync_status := "local", deleted_at := some 2000, version := 1,
    created_at := 1000, updated_at := 2000 }

/-! ## Helper lemmas -/

/-- One unfolding of `navigateToFuel` on a positive budget. -/
theorem navFuel_step (f : Nat) (s : AppState) (page : String) (u : Bool) :
    navigateToFuel (f + 1) s page u =
      match ROUTES page with
      | none => navigateToFuel f s "landing" u
      | some route =>
        if route.name = s.currentPage then some s
        else if route.type = RouteType.modal then some (openModal s page)
        else if !(canAccess s page) then navigateToFuel f s "landing" false
        else some (navApply s route page u) := rfl

/-- Re-navigation to the current page is a no-op. -/
theorem navFuel_noop (f : Nat) (s : AppState) (page : String) (u : Bool)
    (route : Route) (h1 : ROUTES page = some route)
    (h2 : route.name = s.currentPage) :
    navigateToFuel (f + 1) s page u = some s := by
  rw [navFuel_step, h1]
  simp [h2]

/-- A modal route delegates to `openModal` before the auth guard runs. -/
theorem navFuel_modal (f : Nat) (s : AppState) (page : String) (u : Bool)
    (route : Route) (h1 : ROUTES page = some route)
    (h2 : route.name ≠ s.currentPage) (h3 : route.type = RouteType.modal) :
    navigateToFuel (f + 1) s page u = some (openModal s page) := by
  rw [navFuel_step, h1]
  simp [h2, h3]

/-- A guard denial recurses into `navigateTo('landing', {updateHistory:
false})` without touching the state. -/
theorem navFuel_denied (f : Nat) (s : AppState) (page : String) (u : Bool)
    (route : Route) (h1 : ROUTES page = some route)
    (h2 : route.name ≠ s.currentPage) (h3 : route.type ≠ RouteType.modal)
    (h4 : canAccess s page = false) :
    navigateToFuel (f + 1) s page u = navigateToFuel f s "landing" false := by
  rw [navFuel_step, h1]
  simp [h2, h3, h4]

/-- A permitted page navigation executes the body. -/
theorem navFuel_go (f : Nat) (s : AppState) (page : String) (u : Bool)
    (route : Route) (h1 : ROUTES page = some route)
    (h2 : route.name ≠ s.currentPage) (h3 : route.type ≠ RouteType.modal)
    (h4 : canAccess s page = true) :
    navigateToFuel (f + 1) s page u = some (navApply s route page u) := by
  rw [navFuel_step, h1]
  simp [h2, h3, h4]

/-- The navigation body lands on the requested page. -/
theorem navApply_currentPage (s : AppState) (route : Route) (page : String)
    (u : Bool) : (navApply s route page u).currentPage = page := rfl

/-- Filtering a user's rows out and appending that user's fresh row leaves
exactly the fresh row for that user. -/
theorem filter_user_after_replace (uid : Nat) (l : List Session) (x : Session)
    (hx : x.user_id = uid) :
    ((l.filter (fun s => s.user_id != uid)) ++ [x]).filter
        (fun s => s.user_id == uid) = [x] := by
  rw [List.filter_append, List.filter_filter]
  simp [hx, bne, Bool.and_not_self]

/-- Opening a modal never changes the current page. -/
theorem openModal_currentPage (s : AppState) (page : String) :
    (openModal s page).currentPage = s.currentPage := by
  unfold openModal
  cases hR : ROUTES page with
  | none => rfl
  | some route =>
    dsimp only
    by_cases ht : route.type = RouteType.modal
    · rw [if_pos ht]
    · rw [if_neg ht]

/-- Route-table lookup of the login page. -/
theorem ROUTES_login : ROUTES "login" = some loginRoute := rfl

/-- Route-table lookup of the dashboard page. -/
theorem ROUTES_dashboard : ROUTES "dashboard" = some dashboardRoute := rfl

/-- Route-table lookup of the landing page. -/
theorem ROUTES_landing : ROUTES "landing" = some landingRoute := rfl

/-- A successful credential check inside `login` reduces it to the inner
navigation to the persisted last page or the dashboard. -/
theorem loginFuel_success (fuel : Nat) (s : AppState)
    (hashFn : String → String → String) (un pw : String) (rm : Bool)
    (tok : String) (fid : Nat) (now : Int) (u : User)
    (hverify : verifyLogin s.users hashFn un pw = some u) :
    loginFuel fuel s hashFn un pw rm tok fid now =
      (match navigateToFuel fuel
          { s with
            sessions := (createSession s.sessions u.id rm tok fid now).1,
            localToken := some tok, currentUser := some u }
          ((loadPage s.users u.id).getD "dashboard") true with
        | none => none
        | some s2 => some (s2, true)) := by
  unfold loginFuel
  rw [hverify]

/-! ## Claim theorems -/

/-- C2.  The claim says `createCategory` stores `predefined = false` for every
input.  In the source the `...data` spread comes after the
`predefined, // always false here` field, so a payload carrying
`predefined: true` overrides the forced value: the stored record has
`predefined = true`, contradicting the code's own comment.  (A payload
without the property does store `false`.) -/
theorem createCategory_predefined_passthrough :
    (createCategory 1 { predefined := some true } 7 0).predefined = true ∧
    (createCategory 1 {} 7 0).predefined = false := by
  exact ⟨rfl, rfl⟩

/-- C3.  Single active session: any successful `createSession(userId,
rememberMe)` leaves exactly one session row for that user — the fresh one —
and after two successive logins for the same user only the second login's
token remains. -/
theorem createSession_single_active_session :
    ∀ (sessions : List Session) (uid : Nat) (rm1 rm2 : Bool) (t1 t2 : String)
      (id1 id2 : Nat) (n1 n2 : Int),
      ((createSession sessions uid rm1 t1 id1 n1).1.filter
          (fun s => s.user_id == uid)) =
        [{ id := id1, user_id := uid, token := t1,
           expires_at :=
             n1 + (if rm1 then SESSION_EXPIRY_LONG else SESSION_EXPIRY_SHORT),
           created_at := n1, updated_at := n1 }] ∧
      (((createSession (createSession sessions uid rm1 t1 id1 n1).1
            uid rm2 t2 id2 n2).1).filter
          (fun s => s.user_id == uid)) =
        [{ id := id2, user_id := uid, token := t2,
           expires_at :=
             n2 + (if rm2 then SESSION_EXPIRY_LONG else SESSION_EXPIRY_SHORT),
           created_at := n2, updated_at := n2 }] := by
  intro sessions uid rm1 rm2 t1 t2 id1 id2 n1 n2
  constructor
  · exact filter_user_after_replace uid sessions _ rfl
  · exact filter_user_after_replace uid _ _ rfl

/-- C5 counterexample.  The claim says every input whose supplied `date` does
not parse to a valid calendar date is rejected with "Invalid date" and
nothing is written.  But `data.date ? new Date(data.date) : new Date()` tests
truthiness, so a supplied falsy unparsable date — the empty string, or `NaN`
— is silently replaced by the current time: the insert succeeds and a row is
written. -/
theorem createTransaction_falsy_unparsable_date_succeeds :
    (createTransactionDb [] 1 { date := some DateVal.emptyOrNaN } 1 5).1 =
        Except.ok 1 ∧
    (createTransactionDb [] 1 { date := some DateVal.emptyOrNaN } 1 5).2 ≠
        ([] : List Transaction) := by
  exact ⟨rfl, by decide⟩

/-- C5 amended.  For every input whose supplied `date` is truthy and does not
parse to a valid calendar date, `createTransaction` fails with the
"Invalid date" error and the transactions table is unchanged (no record is
written on that path). -/
theorem createTransaction_invalid_date_error :
    ∀ (table : List Transaction) (uid : Nat) (data : TransactionData)
      (fid : Nat) (now : Int),
      data.date = some DateVal.invalid →
      createTransactionDb table uid data fid now =
        (Except.error "Invalid date", table) := by
  intro table uid data fid now h
  simp [createTransactionDb, createTransaction, h]

/-- C5 amended, witness at a concrete input. -/
theorem createTransaction_invalid_date_error_witness :
    (({ date := some DateVal.invalid } : TransactionData).date =
        some DateVal.invalid) ∧
    createTransactionDb [] 1 { date := some DateVal.invalid } 1 0 =
      (Except.error "Invalid date", []) :=
  ⟨rfl, createTransaction_invalid_date_error [] 1 _ 1 0 rfl⟩

/-- C6.  The claim says an unparsable `amount` is stored as `0`.  The code
computes `amount: Number(data.amount) || 0`, but the `...data` spread comes
after it, so a present `amount` property overrides the coerced value: the
raw unparsable value (here the string `"abc"`) is what gets stored, not `0`. -/
theorem createTransaction_amount_passthrough :
    (createTransaction 1 { amount := some (JsVal.str "abc") } 7 0).map
        Transaction.amount = Except.ok (JsVal.str "abc") ∧
    JsVal.str "abc" ≠ JsVal.num 0 := by
  exact ⟨rfl, by decide⟩

/-- C10.  `clearSession({userId})` with a non-null (truthy) user id deletes
exactly that user's session rows — every other user's row survives verbatim
in the filtered table — and unconditionally clears the local `sessionToken`
slot whenever it holds any token, even one belonging to a different user's
still-valid session. -/
theorem clearSession_userId_clears_token_frame :
    ∀ (sessions : List Session) (c : String) (uid : Nat),
      0 < uid →
      clearSession sessions (some c) (some uid) none =
        (sessions.filter (fun s => some s.user_id != some uid), none) := by
  intro sessions c uid h
  have ht : truthyId (some uid) = true := by
    simp [truthyId]
    omega
  simp [clearSession, ht]

/-- C7.  Hash round trip and null sentinel: for a stored user whose hash is
derived from the correct password and the stored salt, `verifyLogin` returns
that user on the correct password and `none` on any password deriving a
different hash.  `verifyLogin` is a total function into `Option User` — the
source wraps everything in try/catch and returns the `null` sentinel, never
an exception, for a wrong password. -/
theorem verifyLogin_round_trip :
    ∀ (users : List User) (hashFn : String → String → String)
      (x correct wrong salt : String) (u : User),
      users.find? (fun v => v.username == x || v.email == x) = some u →
      u.passwordSalt = some salt →
      u.passwordHash = some (hashFn correct salt) →
      hashFn correct salt ≠ "" →
      salt ≠ "" →
      hashFn wrong salt ≠ hashFn correct salt →
      verifyLogin users hashFn x correct = some u ∧
      verifyLogin users hashFn x wrong = none := by
  intro users hashFn x correct wrong salt u hfind hsalt hhash hne1 hne2 hne3
  unfold verifyLogin
  rw [hfind]
  simp only [hsalt, hhash]
  constructor
  · simp [hne1, hne2]
  · simp [hne1, hne2, hne3]

/-- C7 witness at a concrete user and stand-in derivation function. -/
theorem verifyLogin_round_trip_witness :
    ([exUserFresh].find?
        (fun v => v.username == "alice" || v.email == "alice") =
      some exUserFresh) ∧
    exUserFresh.passwordSalt = some "s1" ∧
    exUserFresh.passwordHash = some (exHash "pw" "s1") ∧
    (verifyLogin [exUserFresh] exHash "alice" "pw" = some exUserFresh ∧
      verifyLogin [exUserFresh] exHash "alice" "bad" = none) :=
  ⟨rfl, rfl, rfl,
    verifyLogin_round_trip [exUserFresh] exHash "alice" "pw" "bad" "s1"
      exUserFresh rfl rfl rfl (by decide) (by decide) (by decide)⟩

/-- C4.  Predefined immutability: for a table with distinct ids, updating an
existing predefined category leaves `type`, `color` and `predefined` of the
row at that id equal to their prior values, whatever the payload supplies for
them. -/
theorem updateCategory_predefined_immutable :
    ∀ (cats : List Category) (id : Nat) (data : CategoryData) (now : Int)
      (existing : Category),
      cats.Pairwise (fun a b => a.id ≠ b.id) →
      cats.find? (fun c => c.id == id) = some existing →
      existing.predefined = true →
      ∃ cats', updateCategory cats id data now = Except.ok (cats', id) ∧
        ∀ c ∈ cats', c.id = id →
          c.type = existing.type ∧ c.color = existing.color ∧
            c.predefined = true := by
  intro cats id data now existing huniq hfind hpred
  have hmem : existing ∈ cats := List.mem_of_find?_eq_some hfind
  have hid : existing.id = id := by simpa using List.find?_some hfind
  have hkey : ∀ c ∈ cats, c.id = id → c = existing := by
    intro c hc hcid
    by_contra hne
    have hsym : Symmetric (fun a b : Category => a.id ≠ b.id) :=
      fun a b h e => h e.symm
    exact (huniq.forall hsym hc hmem hne) (hcid.trans hid.symm)
  have hrec :
      (mergeCategory existing (forcePredefinedFields existing data) now).type =
          existing.type ∧
      (mergeCategory existing (forcePredefinedFields existing data) now).color =
          existing.color ∧
      (mergeCategory existing (forcePredefinedFields existing data) now).predefined =
          existing.predefined := by
    simp [mergeCategory, forcePredefinedFields, hpred]
  unfold updateCategory
  rw [hfind]
  refine ⟨_, rfl, ?_⟩
  intro c hc hcid
  set record := mergeCategory existing (forcePredefinedFields existing data) now
    with hrecdef
  by_cases hany : (cats.any fun c => c.id == record.id) = true
  · rw [if_pos hany] at hc
    rcases List.mem_map.1 hc with ⟨a, ha, hfa⟩
    by_cases haid : a.id = record.id
    · rw [if_pos haid] at hfa
      rcases hfa with rfl
      exact ⟨hrec.1, hrec.2.1, hrec.2.2.trans hpred⟩
    · rw [if_neg haid] at hfa
      rcases hfa with rfl
      rcases hkey a ha hcid with rfl
      exact ⟨rfl, rfl, hpred⟩
  · rw [if_neg hany] at hc
    rcases List.mem_append.1 hc with hcl | hcr
    · rcases hkey c hcl hcid with rfl
      exact ⟨rfl, rfl, hpred⟩
    · rcases List.mem_singleton.1 hcr with rfl
      exact absurd
        (List.any_eq_true.2 ⟨existing, hmem, by simp [hid, hcid]⟩) hany

/-- C4 witness: the spec's own test — a predefined seeded category updated
with `{type: 'income', color: '#000000'}` keeps its seeded type, color and
predefined flag. -/
theorem updateCategory_predefined_immutable_witness :
    ([exPredefCat].Pairwise (fun a b => a.id ≠ b.id)) ∧
    ([exPredefCat].find? (fun c => c.id == 3) = some exPredefCat) ∧
    exPredefCat.predefined = true ∧
    (∃ cats',
      updateCategory [exPredefCat] 3
          { type := some "income", color := some "#000000" } 10 =
        Except.ok (cats', 3) ∧
      ∀ c ∈ cats', c.id = 3 →
        c.type = exPredefCat.type ∧ c.color = exPredefCat.color ∧
          c.predefined = true) :=
  ⟨List.pairwise_singleton _ _, rfl, rfl,
    updateCategory_predefined_immutable [exPredefCat] 3
      { type := some "income", color := some "#000000" } 10 exPredefCat
      (List.pairwise_singleton _ _) rfl rfl⟩

/-- C8.  Soft-delete exclusion: a row with a non-null `deleted_at` never
appears in a `getTransactions` read (with or without date bounds), while the
read leaves the stored table — that row included — untouched. -/
theorem getTransactions_soft_delete_exclusion :
    ∀ (table : List Transaction) (uid : Nat) (sd ed : Option Int)
      (row : Transaction),
      row ∈ table → row.deleted_at ≠ none →
      row ∉ (getTransactionsOp table uid sd ed).1 ∧
      row ∈ (getTransactionsOp table uid sd ed).2 := by
  intro table uid sd ed row hmem hdel
  refine ⟨?_, hmem⟩
  intro hin
  unfold getTransactionsOp getTransactions at hin
  simp only [List.mem_reverse, List.mem_filter, List.mem_mergeSort,
    decide_eq_true_eq] at hin
  exact hdel hin.2

/-- C8 witness: a soft-deleted row is excluded from both the unbounded and a
bounded read, and survives in storage. -/
theorem getTransactions_soft_delete_exclusion_witness :
    exDeletedTx ∈ [exDeletedTx] ∧
    exDeletedTx.deleted_at ≠ none ∧
    (exDeletedTx ∉ (getTransactionsOp [exDeletedTx] 1 none none).1 ∧
      exDeletedTx ∈ (getTransactionsOp [exDeletedTx] 1 none none).2) :=
  ⟨List.mem_singleton.2 rfl, by decide,
    getTransactions_soft_delete_exclusion [exDeletedTx] 1 none none
      exDeletedTx (List.mem_singleton.2 rfl) (by decide)⟩

/-- C10 witness: the stored token is another user's valid session token; the
slot is cleared anyway while that user's session row survives. -/
theorem clearSession_userId_clears_token_frame_witness :
    0 < 1 ∧
    clearSession [exOtherSession] (some "othertok") (some 1) none =
      ([exOtherSession], none) :=
  ⟨by decide,
    (clearSession_userId_clears_token_frame [exOtherSession] "othertok" 1
      (by decide)).trans (by decide)⟩

/-- C9.  The claim says `navigateTo` returns for every page key and state.
It does not: for an authenticated visitor whose current page is not
`landing`, `canAccess('landing')` is `false` (landing is in
`AUTH.restricted`), and the guard-denial path redirects to `landing` again
with the state untouched, recursing forever — no recursion budget ever
suffices from the concrete authenticated dashboard state.  (The popstate
handler makes this reachable: pressing Back to `/` while logged in issues
exactly this call.) -/
theorem navigateTo_landing_diverges_when_authenticated :
    ∀ (fuel : Nat) (u : Bool),
      navigateToFuel fuel exAuthState "landing" u = none := by
  intro fuel
  induction fuel with
  | zero =>
    intro u
    rfl
  | succ f ih =>
    intro u
    rw [navFuel_denied f exAuthState "landing" u landingRoute ROUTES_landing
      (by decide) (by decide) (by decide)]
    exact ih false

/-- C1 counterexample.  The claim says that after any successful `login()`,
`navigateTo('login')` ends on the dashboard.  For a user whose persisted last
page is `test`, login lands on `test`, and `navigateTo('login')` — a
modal-typed route, handled before the auth guard — opens the login modal and
leaves `currentPage` at `test`, not `dashboard`; no redirect to the dashboard
happens. -/
theorem login_modal_keeps_last_page :
    ((loginFuel 5 exTestState exHash "alice" "pw" false "tok1" 1 0).map
        Prod.snd = some true) ∧
    (((loginFuel 5 exTestState exHash "alice" "pw" false "tok1" 1 0).map
          Prod.fst).bind
        (fun s1 => navigateToFuel 5 s1 "login" true)).map
        AppState.currentPage = some "test" ∧
    (((loginFuel 5 exTestState exHash "alice" "pw" false "tok1" 1 0).map
          Prod.fst).bind
        (fun s1 => navigateToFuel 5 s1 "login" true)).map
        AppState.currentPage ≠ some "dashboard" := by
  exact ⟨rfl, rfl, by decide⟩

/-- C1 amended.  Auth guard round trip as the code implements it: an
anonymous visitor not already on the dashboard who calls
`navigateTo('dashboard')` is denied and ends on `landing`; a successful
`login()` for a user with no persisted last page lands on `dashboard`, and a
subsequent `navigateTo('login')` leaves `currentPage` at `dashboard` — not by
a guard redirect, but because the login route is modal-typed and opens the
login modal over the dashboard. -/
theorem auth_guard_round_trip_amended :
    ∀ (n : Nat) (s : AppState) (hashFn : String → String → String)
      (un pw tok : String) (rm : Bool) (fid : Nat) (now : Int) (u : User),
      s.currentUser = none →
      s.currentPage ≠ "dashboard" →
      verifyLogin s.users hashFn un pw = some u →
      loadPage s.users u.id = none →
      (∃ s', navigateToFuel (n + 2) s "dashboard" true = some s' ∧
          s'.currentPage = "landing") ∧
      (∃ s1 s2,
          loginFuel (n + 2) s hashFn un pw rm tok fid now = some (s1, true) ∧
          s1.currentPage = "dashboard" ∧
          navigateToFuel (n + 2) s1 "login" true = some s2 ∧
          s2.currentPage = "dashboard" ∧
          s2.activeModal = some "login") := by
  intro n s hashFn un pw tok rm fid now u hanon hpage hverify hload
  have hcanDash : canAccess s "dashboard" = false := by
    unfold canAccess
    rw [hanon]
    rfl
  have hcanLand : canAccess s "landing" = true := by
    unfold canAccess
    rw [hanon]
    rfl
  constructor
  · have ha : navigateToFuel (n + 1 + 1) s "dashboard" true =
        navigateToFuel (n + 1) s "landing" false :=
      navFuel_denied (n + 1) s "dashboard" true dashboardRoute
        ROUTES_dashboard (fun h => hpage h.symm) (by decide) hcanDash
    by_cases hl : s.currentPage = "landing"
    · exact ⟨s,
        ha.trans (navFuel_noop n s "landing" false landingRoute
          ROUTES_landing hl.symm), hl⟩
    · have hb : navigateToFuel (n + 1) s "landing" false =
          some (navApply s landingRoute "landing" false) :=
        navFuel_go n s "landing" false landingRoute ROUTES_landing
          (fun h => hl h.symm) (by decide) hcanLand
      exact ⟨navApply s landingRoute "landing" false, ha.trans hb,
        navApply_currentPage s landingRoute "landing" false⟩
  · have hs1cu :
        (AppState.currentUser
          { s with
            sessions := (createSession s.sessions u.id rm tok fid now).1,
            localToken := some tok, currentUser := some u }) = some u := rfl
    have hcan : canAccess
        { s with
          sessions := (createSession s.sessions u.id rm tok fid now).1,
          localToken := some tok, currentUser := some u } "dashboard" = true := by
      unfold canAccess
      rw [hs1cu]
      rfl
    have hnav1 : navigateToFuel (n + 2)
        { s with
          sessions := (createSession s.sessions u.id rm tok fid now).1,
          localToken := some tok, currentUser := some u } "dashboard" true =
        some (navApply
          { s with
            sessions := (createSession s.sessions u.id rm tok fid now).1,
            localToken := some tok, currentUser := some u }
          dashboardRoute "dashboard" true) :=
      navFuel_go (n + 1) _ "dashboard" true dashboardRoute ROUTES_dashboard
        (fun h => hpage h.symm) (by decide) hcan
    refine ⟨navApply
        { s with
          sessions := (createSession s.sessions u.id rm tok fid now).1,
          localToken := some tok, currentUser := some u }
        dashboardRoute "dashboard" true,
      openModal (navApply
        { s with
          sessions := (createSession s.sessions u.id rm tok fid now).1,
          localToken := some tok, currentUser := some u }
        dashboardRoute "dashboard" true) "login", ?_, ?_, ?_, ?_, ?_⟩
    · rw [loginFuel_success (n + 2) s hashFn un pw rm tok fid now u hverify,
        hload]
      simp only [Option.getD_none]
      rw [hnav1]
    · exact navApply_currentPage _ dashboardRoute "dashboard" true
    · exact navFuel_modal (n + 1) _ "login" true loginRoute ROUTES_login
        (by rw [navApply_currentPage]; decide) rfl
    · exact (openModal_currentPage _ "login").trans
        (navApply_currentPage _ dashboardRoute "dashboard" true)
    · rfl

/-- C1 amended, witness: a concrete anonymous state over one registered user
with no persisted last page. -/
theorem auth_guard_round_trip_amended_witness :
    exFreshState.currentUser = none ∧
    exFreshState.currentPage ≠ "dashboard" ∧
    verifyLogin exFreshState.users exHash "alice" "pw" = some exUserFresh ∧
    loadPage exFreshState.users exUserFresh.id = none ∧
    ((∃ s', navigateToFuel 2 exFreshState "dashboard" true = some s' ∧
        s'.currentPage = "landing") ∧
      (∃ s1 s2,
        loginFuel 2 exFreshState exHash "alice" "pw" false "tok" 1 0 =
          some (s1, true) ∧
        s1.currentPage = "dashboard" ∧
        navigateToFuel 2 s1 "login" true = some s2 ∧
        s2.currentPage = "dashboard" ∧
        s2.activeModal = some "login")) :=
  ⟨rfl, by decide, rfl, rfl,
    auth_guard_round_trip_amended 0 exFreshState exHash "alice" "pw" "tok"
      false 1 0 exUserFresh rfl (by decide) rfl rfl⟩

end FinanceApp
